import Mathlib

/-!
Verification of `scripts/generate-jwt.py`, a command-line JWT generator for
rule-engine testing. The script builds a claims payload, signs it with the
PyJWT library (HMAC-SHA256), and prints the token or a decoded verification
in one of several output formats.

The PyJWT signing primitive is external to the repository; it is modelled
symbolically (ideal MAC): a signature is an opaque value determined by the
algorithm, the secret and the signed payload, so two signatures coincide
exactly when algorithm, secret and payload all coincide. Verification
checks the declared algorithm against the allowed list, checks the
signature, then validates the expiry claim (dedicated expired error when
now is at or past `exp`) and the not-before claim, following the contract
stated in the specification of the tool.

Timestamps are integers (seconds since the epoch); `datetime.utcnow()`
becomes an explicit `now : Int` parameter, and `timedelta(hours=h)` is
`h * 3600` seconds, matching the integer timestamps PyJWT encodes.
-/

/-- A JSON value occurring in a claims payload: the script only ever stores
strings and (integer) timestamps. -/
inductive JwtValue where
  | str (s : String)
  | int (t : Int)
deriving DecidableEq, Repr

/-- The claims payload: the Python dict, as an association list in literal
order. -/
def ClaimsDict := List (String × JwtValue)
deriving DecidableEq, Repr

/-- Dictionary lookup, `claims[key]` on the Python dict. -/
def lookupClaim : ClaimsDict → String → Option JwtValue
  | [], _ => none
  | (k, v) :: rest, key => if k = key then some v else lookupClaim rest key

/-- Symbolic HMAC signature: an ideal MAC, fully determined by (and
injective in) the algorithm, the secret and the signed payload. -/
inductive Signature where
  | mac (alg : String) (secret : String) (payload : ClaimsDict)
deriving DecidableEq, Repr

/-- A structurally well-formed JWT: header algorithm, payload, signature. -/
structure JwtToken where
  alg : String
  payload : ClaimsDict
  sig : Signature
deriving DecidableEq, Repr

/-- A command-line token argument: the empty string, a well-formed encoded
token, or any other (malformed) string. -/
inductive TokenStr where
  | empty
  | jwt (t : JwtToken)
  | malformed (s : String)
deriving DecidableEq, Repr

/-- Algorithms the symmetric signing primitive accepts. -/
def supportedAlgs : List String := ["HS256", "HS384", "HS512"]

/-- `jwt.encode(claims, secret, algorithm=alg)`: sign the payload, failing
when the algorithm is not supported. -/
def jwtEncode (payload : ClaimsDict) (secret : String) (alg : String) :
    Except String JwtToken :=
  if alg ∈ supportedAlgs then
    Except.ok ⟨alg, payload, Signature.mac alg secret payload⟩
  else
    Except.error "Algorithm not supported"

/-- Errors raised by the PyJWT decode primitive, as the two classes the
script distinguishes: `ExpiredSignatureError`, and every other
`InvalidTokenError` with its message. -/
inductive PyJwtErr where
  | expiredSignature
  | invalidToken (msg : String)
deriving DecidableEq, Repr

/-- Not-before validation: fails when `nbf` lies in the future. -/
def validateNbf (p : ClaimsDict) (now : Int) : Except PyJwtErr ClaimsDict :=
  match lookupClaim p "nbf" with
  | some (JwtValue.int n) =>
      if now < n then
        Except.error (PyJwtErr.invalidToken "The token is not yet valid (nbf)")
      else Except.ok p
  | some _ =>
      Except.error (PyJwtErr.invalidToken "Not Before claim (nbf) must be an integer.")
  | none => Except.ok p

/-- Expiry validation: the dedicated expired error when now is at or past
`exp`, then not-before validation. -/
def validateExp (p : ClaimsDict) (now : Int) : Except PyJwtErr ClaimsDict :=
  match lookupClaim p "exp" with
  | some (JwtValue.int e) =>
      if e ≤ now then Except.error PyJwtErr.expiredSignature
      else validateNbf p now
  | some _ =>
      Except.error (PyJwtErr.invalidToken "Expiration Time claim (exp) must be an integer.")
  | none => validateNbf p now

/-- `jwt.decode(token, secret, algorithms=allowed)`: the declared algorithm
must be allowed, the signature must match the one produced with this
secret and algorithm over this payload, then the timestamp claims are
validated. -/
def jwtDecode (t : JwtToken) (secret : String) (allowed : List String)
    (now : Int) : Except PyJwtErr ClaimsDict :=
  if t.alg ∈ allowed then
    if t.sig = Signature.mac t.alg secret t.payload then
      validateExp t.payload now
    else Except.error (PyJwtErr.invalidToken "Signature verification failed")
  else Except.error (PyJwtErr.invalidToken "The specified alg value is not allowed")

/-- The claims dict literal built by `generate_jwt_token`, in source order:
clientId, role, exp = now + expiry_hours hours, iat = now, nbf = now. -/
def buildClaims (client_id : String) (role : String) (expiry_hours : Int)
    (now : Int) : ClaimsDict :=
  [("clientId", JwtValue.str client_id),
   ("role", JwtValue.str role),
   ("exp", JwtValue.int (now + expiry_hours * 3600)),
   ("iat", JwtValue.int now),
   ("nbf", JwtValue.int now)]

/-- `generate_jwt_token(client_id, role, secret, expiry_hours=24,
algorithm="HS256")`: build the claims and sign them; a failure of the
primitive is re-raised as `ValueError` with a wrapped message. -/
def generate_jwt_token (client_id : String) (role : String) (secret : String)
    (expiry_hours : Int) (algorithm : String) (now : Int) :
    Except String JwtToken :=
  match jwtEncode (buildClaims client_id role expiry_hours now) secret algorithm with
  | Except.ok t => Except.ok t
  | Except.error e => Except.error ("Failed to generate JWT token: " ++ e)

/-- The error a failed `decode_jwt_token` raises, as the two `except`
branches of the script: expired, or invalid with the underlying message. -/
inductive DecodeErr where
  | expired
  | invalid (msg : String)
deriving DecidableEq, Repr

/-- The `ValueError` message carried by each decode failure. -/
def DecodeErr.message : DecodeErr → String
  | DecodeErr.expired => "Token has expired"
  | DecodeErr.invalid m => "Invalid token: " ++ m

/-- `decode_jwt_token(token, secret)`: verify with HS256 as the only
allowed algorithm; `ExpiredSignatureError` becomes the expired error, any
other `InvalidTokenError` becomes the invalid error with its message. A
string that does not parse as a token fails inside `jwt.decode` with a
decode error. -/
def decode_jwt_token (tok : TokenStr) (secret : String) (now : Int) :
    Except DecodeErr ClaimsDict :=
  match tok with
  | TokenStr.jwt t =>
      match jwtDecode t secret ["HS256"] now with
      | Except.ok c => Except.ok c
      | Except.error PyJwtErr.expiredSignature => Except.error DecodeErr.expired
      | Except.error (PyJwtErr.invalidToken m) => Except.error (DecodeErr.invalid m)
  | _ => Except.error (DecodeErr.invalid "Not enough segments")

/-- Character-list test: the second list is an initial segment of the
first. -/
def startsWithChars : List Char → List Char → Bool
  | _, [] => true
  | [], _ :: _ => false
  | c :: cs, p :: ps => c = p && startsWithChars cs ps

/-- Character-list test: the second list occurs contiguously inside the
first. -/
def containsSeg : List Char → List Char → Bool
  | [], pat => pat.isEmpty
  | c :: cs, pat => startsWithChars (c :: cs) pat || containsSeg cs pat

/-- Substring test on strings, via their character lists. -/
def strContains (s : String) (pat : String) : Bool :=
  containsSeg s.data pat.data

/-- Suffix test on strings, via their reversed character lists. -/
def strEndsWith (s : String) (pat : String) : Bool :=
  startsWithChars s.data.reverse pat.data.reverse

/-- The command line as handed to `argparse`: for each flag, the value
supplied, or `none` when the flag is absent. The `--expiry` value is
already an integer (argparse applies `type=int` before any script code
runs). -/
structure RawArgs where
  clientId : Option String
  role : Option String
  secret : Option String
  expiry : Option Int
  decode : Option TokenStr
  format : Option String
deriving DecidableEq, Repr

/-- The parsed arguments after defaults are applied. -/
structure CliArgs where
  clientId : String
  role : String
  secret : String
  expiry : Int
  decode : Option TokenStr
  format : String
deriving DecidableEq, Repr

/-- The `choices` list of `--role`. -/
def roleChoices : List String := ["admin", "viewer", "executor"]

/-- The `choices` list of `--format`. -/
def formatChoices : List String := ["token", "json", "curl"]

/-- argparse handling of one flag with a `choices` restriction: an absent
flag takes the default, a supplied value outside the choices is rejected. -/
def validateChoice (given : Option String) (dflt : String)
    (choices : List String) (flag : String) : Except String String :=
  match given with
  | none => Except.ok dflt
  | some v =>
      if v ∈ choices then Except.ok v
      else Except.error ("argument " ++ flag ++ ": invalid choice: " ++ v)

/-- `parser.parse_args()`: apply defaults and validate the two enum flags;
on a violation argparse prints usage and exits with status 2. -/
def parseArgs (r : RawArgs) : Except String CliArgs :=
  match validateChoice r.role "admin" roleChoices "--role" with
  | Except.error m => Except.error m
  | Except.ok role =>
      match validateChoice r.format "token" formatChoices "--format" with
      | Except.error m => Except.error m
      | Except.ok fmt =>
          Except.ok
            { clientId := r.clientId.getD "test-client"
              role := role
              secret := r.secret.getD "dev-secret-key-change-in-production"
              expiry := r.expiry.getD 24
              decode := r.decode
              format := fmt }

/-- A piece of a printed line: literal text, or the token string spliced in
by an f-string. -/
inductive Chunk where
  | str (s : String)
  | tok (t : JwtToken)
deriving DecidableEq, Repr

/-- One line printed by `main`, kept structural: argparse usage errors,
caught `ValueError` messages, the two decode success forms, and the three
generation output formats. -/
inductive CliOutput where
  | usageError (msg : String)
  | errorMsg (msg : String)
  | decodedJson (claims : ClaimsDict)
  | decodedValid (claims : ClaimsDict)
  | tokenOnly (t : JwtToken)
  | jsonOut (t : JwtToken) (claims : ClaimsDict) (usage : List Chunk)
  | curlOut (line : List Chunk)
deriving DecidableEq, Repr

/-- The observable result of one run of `main`: process exit status, the
printed lines, and whether control reached `generate_jwt_token`. -/
structure MainResult where
  exitCode : Nat
  output : List CliOutput
  calledGenerate : Bool
deriving DecidableEq, Repr

/-- The `usage` f-string of the json format:
`curl -H "Authorization: Bearer {token}" http://localhost:8080/v1/namespaces`. -/
def jsonUsageLine (t : JwtToken) : List Chunk :=
  [Chunk.str "curl -H \"Authorization: Bearer ",
   Chunk.tok t,
   Chunk.str "\" http://localhost:8080/v1/namespaces"]

/-- The line printed by format `curl`, the same f-string as the json
usage field. -/
def curlLine (t : JwtToken) : List Chunk :=
  [Chunk.str "curl -H \"Authorization: Bearer ",
   Chunk.tok t,
   Chunk.str "\" http://localhost:8080/v1/namespaces"]

/-- The decode branch of `main`: verify the supplied token, print the
claims (JSON or plain), or print the caught error and exit 1. -/
def mainDecode (ts : TokenStr) (a : CliArgs) (now : Int) : MainResult :=
  match decode_jwt_token ts a.secret now with
  | Except.ok claims =>
      if a.format = "json" then ⟨0, [CliOutput.decodedJson claims], false⟩
      else ⟨0, [CliOutput.decodedValid claims], false⟩
  | Except.error e =>
      ⟨1, [CliOutput.errorMsg ("Error: " ++ e.message)], false⟩

/-- The generation branch of `main`: generate the token, then format it;
the json format re-verifies the fresh token, so its decode failure is also
caught here. -/
def mainGenerate (a : CliArgs) (now : Int) : MainResult :=
  match generate_jwt_token a.clientId a.role a.secret a.expiry "HS256" now with
  | Except.error m => ⟨1, [CliOutput.errorMsg ("Error: " ++ m)], true⟩
  | Except.ok token =>
      if a.format = "json" then
        match decode_jwt_token (TokenStr.jwt token) a.secret now with
        | Except.ok claims =>
            ⟨0, [CliOutput.jsonOut token claims (jsonUsageLine token)], true⟩
        | Except.error e =>
            ⟨1, [CliOutput.errorMsg ("Error: " ++ e.message)], true⟩
      else if a.format = "curl" then
        ⟨0, [CliOutput.curlOut (curlLine token)], true⟩
      else ⟨0, [CliOutput.tokenOnly token], true⟩

namespace Script

/-- `main()`: parse the arguments, then dispatch on `if args.decode:`,
which tests truthiness, so both an absent flag and the empty string fall
through to the generation branch. -/
def main (r : RawArgs) (now : Int) : MainResult :=
  match parseArgs r with
  | Except.error m => ⟨2, [CliOutput.usageError m], false⟩
  | Except.ok a =>
      match a.decode with
      | some ts =>
          if ts = TokenStr.empty then mainGenerate a now
          else mainDecode ts a now
      | none => mainGenerate a now

end Script

/-! Shared lemmas about generation and verification. -/

/-- Generation with the HS256 algorithm always succeeds and returns the
token built from the claims dict, signed with the given secret. -/
theorem generate_ok (cid ρ s : String) (h now : Int) :
    generate_jwt_token cid ρ s h "HS256" now =
      Except.ok ⟨"HS256", buildClaims cid ρ h now,
        Signature.mac "HS256" s (buildClaims cid ρ h now)⟩ := rfl

/-- A freshly generated token with positive expiry verifies under the same
secret at generation time, returning the claims unchanged. -/
theorem decode_generated (cid ρ s : String) (h now : Int) (hpos : 0 < h) :
    decode_jwt_token
      (TokenStr.jwt ⟨"HS256", buildClaims cid ρ h now,
        Signature.mac "HS256" s (buildClaims cid ρ h now)⟩) s now =
      Except.ok (buildClaims cid ρ h now) := by
  have hexp : ¬ (now + h * 3600 ≤ now) := by omega
  simp [decode_jwt_token, jwtDecode, buildClaims, lookupClaim, validateExp,
    validateNbf, hexp]

/-- Claim C1: generating a token for any client id, any role among admin,
viewer and executor, any secret and any positive expiry, and immediately
verifying it with the same secret, succeeds and yields claims whose
clientId and role equal the inputs. -/
theorem C1_roundtrip (cid ρ s : String) (_hρ : ρ ∈ roleChoices)
    (h now : Int) (hpos : 0 < h) :
    ∃ tok claims,
      generate_jwt_token cid ρ s h "HS256" now = Except.ok tok ∧
      decode_jwt_token (TokenStr.jwt tok) s now = Except.ok claims ∧
      lookupClaim claims "clientId" = some (JwtValue.str cid) ∧
      lookupClaim claims "role" = some (JwtValue.str ρ) := by
  refine ⟨_, _, generate_ok cid ρ s h now, decode_generated cid ρ s h now hpos,
    ?_, ?_⟩ <;> simp [buildClaims, lookupClaim]

/-- Witness for C1 at a concrete input. -/
theorem C1_roundtrip_witness :
    ∃ tok claims,
      generate_jwt_token "test-client" "admin" "s" 1 "HS256" 0 = Except.ok tok ∧
      decode_jwt_token (TokenStr.jwt tok) "s" 0 = Except.ok claims ∧
      lookupClaim claims "clientId" = some (JwtValue.str "test-client") ∧
      lookupClaim claims "role" = some (JwtValue.str "admin") :=
  C1_roundtrip "test-client" "admin" "s" (by decide) 1 0 (by decide)

/-- Claim C2: the claims set built by `generate_jwt_token` has exactly the
keys clientId, role, iat, nbf and exp, with nbf equal to iat and exp equal
to iat plus expiry hours; in the scenario client-id=test-client,
role=admin, expiry=24, the token decodes to claims with clientId
"test-client", role "admin" and exp minus iat equal to 24 hours. -/
theorem C2_claims_shape :
    (∀ (cid ρ s : String) (h now : Int) (tok : JwtToken),
      generate_jwt_token cid ρ s h "HS256" now = Except.ok tok →
      tok.payload.map Prod.fst = ["clientId", "role", "exp", "iat", "nbf"] ∧
      (∀ k : String, k ∈ tok.payload.map Prod.fst ↔
        (k = "clientId" ∨ k = "role" ∨ k = "iat" ∨ k = "nbf" ∨ k = "exp")) ∧
      lookupClaim tok.payload "nbf" = lookupClaim tok.payload "iat" ∧
      lookupClaim tok.payload "iat" = some (JwtValue.int now) ∧
      lookupClaim tok.payload "exp" = some (JwtValue.int (now + h * 3600))) ∧
    (∀ (s : String) (now : Int), ∃ tok claims,
      generate_jwt_token "test-client" "admin" s 24 "HS256" now = Except.ok tok ∧
      decode_jwt_token (TokenStr.jwt tok) s now = Except.ok claims ∧
      lookupClaim claims "clientId" = some (JwtValue.str "test-client") ∧
      lookupClaim claims "role" = some (JwtValue.str "admin") ∧
      ∃ e i : Int,
        lookupClaim claims "exp" = some (JwtValue.int e) ∧
        lookupClaim claims "iat" = some (JwtValue.int i) ∧
        e - i = 24 * 3600) := by
  constructor
  · intro cid ρ s h now tok hgen
    rw [generate_ok] at hgen
    cases hgen
    refine ⟨by simp [buildClaims], ?_, by simp [buildClaims, lookupClaim],
      by simp [buildClaims, lookupClaim], by simp [buildClaims, lookupClaim]⟩
    intro k
    simp only [buildClaims, List.map_cons, List.map_nil, List.mem_cons,
      List.not_mem_nil, or_false]
    tauto
  · intro s now
    refine ⟨_, _, generate_ok "test-client" "admin" s 24 now,
      decode_generated "test-client" "admin" s 24 now (by decide),
      by simp [buildClaims, lookupClaim], by simp [buildClaims, lookupClaim],
      now + 24 * 3600, now, by simp [buildClaims, lookupClaim],
      by simp [buildClaims, lookupClaim], by ring⟩

/-- Witness for C2 (its universal part) at a concrete input. -/
theorem C2_claims_shape_witness :
    ∃ tok : JwtToken,
      generate_jwt_token "c" "viewer" "k" 2 "HS256" 10 = Except.ok tok ∧
      tok.payload.map Prod.fst = ["clientId", "role", "exp", "iat", "nbf"] ∧
      lookupClaim tok.payload "nbf" = lookupClaim tok.payload "iat" ∧
      lookupClaim tok.payload "exp" = some (JwtValue.int (10 + 2 * 3600)) := by
  have h := C2_claims_shape.1 "c" "viewer" "k" 2 10
    ⟨"HS256", buildClaims "c" "viewer" 2 10,
      Signature.mac "HS256" "k" (buildClaims "c" "viewer" 2 10)⟩ rfl
  exact ⟨_, rfl, h.1, h.2.2.1, h.2.2.2.2⟩

/-- Claim C3: a token generated with secret s1, verified with any
different secret s2 at any time, fails with the invalid-token error (never
succeeds, never yields the expired error). -/
theorem C3_wrong_secret (cid ρ s1 s2 : String) (hne : s2 ≠ s1)
    (h now now2 : Int) (tok : JwtToken)
    (hgen : generate_jwt_token cid ρ s1 h "HS256" now = Except.ok tok) :
    decode_jwt_token (TokenStr.jwt tok) s2 now2 =
      Except.error (DecodeErr.invalid "Signature verification failed") := by
  rw [generate_ok] at hgen
  cases hgen
  have hne' : s1 ≠ s2 := fun e => hne e.symm
  simp [decode_jwt_token, jwtDecode, Signature.mac.injEq, hne']

/-- Witness for C3 at a concrete input. -/
theorem C3_wrong_secret_witness :
    decode_jwt_token
      (TokenStr.jwt ⟨"HS256", buildClaims "c" "admin" 24 0,
        Signature.mac "HS256" "a" (buildClaims "c" "admin" 24 0)⟩) "b" 0 =
      Except.error (DecodeErr.invalid "Signature verification failed") :=
  C3_wrong_secret "c" "admin" "a" "b" (by decide) 24 0 0 _ rfl

/-- Claim C4: a correctly signed token whose exp claim is at or before the
current time fails verification with the expired error, and on the command
line, decoding such a token prints an error containing "expired" and exits
with status 1. -/
theorem C4_expired :
    (∀ (t : JwtToken) (s : String) (now e : Int),
      t.alg = "HS256" →
      t.sig = Signature.mac "HS256" s t.payload →
      lookupClaim t.payload "exp" = some (JwtValue.int e) →
      e ≤ now →
      decode_jwt_token (TokenStr.jwt t) s now = Except.error DecodeErr.expired) ∧
    (∀ (t : JwtToken) (s : String) (now e : Int),
      t.alg = "HS256" →
      t.sig = Signature.mac "HS256" s t.payload →
      lookupClaim t.payload "exp" = some (JwtValue.int e) →
      e ≤ now →
      Script.main ⟨none, none, some s, none, some (TokenStr.jwt t), none⟩ now =
        ⟨1, [CliOutput.errorMsg "Error: Token has expired"], false⟩ ∧
      strContains "Error: Token has expired" "expired" = true) := by
  have hdec : ∀ (t : JwtToken) (s : String) (now e : Int),
      t.alg = "HS256" →
      t.sig = Signature.mac "HS256" s t.payload →
      lookupClaim t.payload "exp" = some (JwtValue.int e) →
      e ≤ now →
      decode_jwt_token (TokenStr.jwt t) s now = Except.error DecodeErr.expired := by
    intro t s now e halg hsig hexp hle
    obtain ⟨alg, payload, sig⟩ := t
    simp only at halg hsig hexp
    subst halg
    subst hsig
    simp [decode_jwt_token, jwtDecode, validateExp, hexp, hle]
  refine ⟨hdec, ?_⟩
  intro t s now e halg hsig hexp hle
  refine ⟨?_, by decide⟩
  have hmain := hdec t s now e halg hsig hexp hle
  simp [Script.main, parseArgs, validateChoice, mainDecode, hmain,
    DecodeErr.message]

/-- Witness for C4 at a concrete input: a token issued at time 5 with zero
expiry hours, decoded at time 5. -/
theorem C4_expired_witness :
    Script.main ⟨none, none, some "k", none,
      some (TokenStr.jwt ⟨"HS256", buildClaims "c" "admin" 0 5,
        Signature.mac "HS256" "k" (buildClaims "c" "admin" 0 5)⟩), none⟩ 5 =
      ⟨1, [CliOutput.errorMsg "Error: Token has expired"], false⟩ ∧
    strContains "Error: Token has expired" "expired" = true :=
  C4_expired.2 _ "k" 5 5 rfl rfl (by decide) (by decide)

/-- Claim C5: a `--role` value outside admin, viewer, executor is rejected
at argument-parsing time: the process exits with status 2 (nonzero) and
`generate_jwt_token` is never reached. -/
theorem C5_invalid_role (r : RawArgs) (ρ : String) (hρ : r.role = some ρ)
    (hbad : ρ ∉ roleChoices) (now : Int) :
    (Script.main r now).exitCode = 2 ∧ (Script.main r now).exitCode ≠ 0 ∧
    (Script.main r now).calledGenerate = false := by
  simp [Script.main, parseArgs, validateChoice, hρ, hbad]

/-- Witness for C5 at a concrete input. -/
theorem C5_invalid_role_witness :
    (Script.main ⟨none, some "root", none, none, none, none⟩ 0).exitCode = 2 ∧
    (Script.main ⟨none, some "root", none, none, none, none⟩ 0).exitCode ≠ 0 ∧
    (Script.main ⟨none, some "root", none, none, none, none⟩ 0).calledGenerate
      = false :=
  C5_invalid_role ⟨none, some "root", none, none, none, none⟩ "root" rfl
    (by decide) 0

/-- Claim C6: under format curl the output is the single invocation line
whose text contains "Authorization: Bearer " immediately followed by the
token and then the fixed URL http://localhost:8080/v1/namespaces; the
usage field of the json format is built from the identical line. -/
theorem C6_curl_output :
    (∀ (a : CliArgs) (now : Int) (tok : JwtToken),
      a.format = "curl" →
      generate_jwt_token a.clientId a.role a.secret a.expiry "HS256" now =
        Except.ok tok →
      mainGenerate a now =
        ⟨0, [CliOutput.curlOut
          [Chunk.str "curl -H \"Authorization: Bearer ", Chunk.tok tok,
           Chunk.str "\" http://localhost:8080/v1/namespaces"]], true⟩) ∧
    (∀ (a : CliArgs) (now : Int) (tok : JwtToken) (claims : ClaimsDict),
      a.format = "json" →
      generate_jwt_token a.clientId a.role a.secret a.expiry "HS256" now =
        Except.ok tok →
      decode_jwt_token (TokenStr.jwt tok) a.secret now = Except.ok claims →
      mainGenerate a now =
        ⟨0, [CliOutput.jsonOut tok claims (jsonUsageLine tok)], true⟩) ∧
    strEndsWith "curl -H \"Authorization: Bearer " "Authorization: Bearer "
      = true ∧
    strContains "\" http://localhost:8080/v1/namespaces"
      "http://localhost:8080/v1/namespaces" = true ∧
    (∀ t : JwtToken, jsonUsageLine t = curlLine t) := by
  refine ⟨?_, ?_, by decide, by decide, fun t => rfl⟩
  · intro a now tok hfmt hgen
    simp [mainGenerate, hgen, hfmt, curlLine]
  · intro a now tok claims hfmt hgen hdec
    simp [mainGenerate, hgen, hfmt, hdec]

/-- Witness for C6 (its curl part) at a concrete input. -/
theorem C6_curl_output_witness :
    mainGenerate ⟨"c", "admin", "k", 24, none, "curl"⟩ 0 =
      ⟨0, [CliOutput.curlOut
        [Chunk.str "curl -H \"Authorization: Bearer ",
         Chunk.tok ⟨"HS256", buildClaims "c" "admin" 24 0,
           Signature.mac "HS256" "k" (buildClaims "c" "admin" 24 0)⟩,
         Chunk.str "\" http://localhost:8080/v1/namespaces"]], true⟩ :=
  C6_curl_output.1 ⟨"c", "admin", "k", 24, none, "curl"⟩ 0 _ rfl rfl

/-- Claim C7: verification allows only HS256 regardless of the declared
algorithm: a successful decode forces the header algorithm to be HS256,
and a token signed under any other algorithm fails with an invalid-token
error. -/
theorem C7_hs256_only :
    (∀ (t : JwtToken) (s : String) (now : Int) (c : ClaimsDict),
      decode_jwt_token (TokenStr.jwt t) s now = Except.ok c →
      t.alg = "HS256") ∧
    (∀ (t : JwtToken) (s k a : String) (now : Int),
      t.sig = Signature.mac a k t.payload → a ≠ "HS256" →
      ∃ m, decode_jwt_token (TokenStr.jwt t) s now =
        Except.error (DecodeErr.invalid m)) := by
  constructor
  · intro t s now c hok
    by_contra hne
    simp [decode_jwt_token, jwtDecode, hne] at hok
  · intro t s k a now hsig hne
    by_cases halg : t.alg = "HS256"
    · refine ⟨"Signature verification failed", ?_⟩
      have hs : t.sig ≠ Signature.mac "HS256" s t.payload := by
        rw [hsig]
        simp [Signature.mac.injEq, hne]
      simp [decode_jwt_token, jwtDecode, halg, hs]
    · refine ⟨"The specified alg value is not allowed", ?_⟩
      simp [decode_jwt_token, jwtDecode, halg]

/-- Witness for C7 (its second part) at a concrete input. -/
theorem C7_hs256_only_witness :
    ∃ m, decode_jwt_token
      (TokenStr.jwt ⟨"HS512", buildClaims "c" "admin" 24 0,
        Signature.mac "HS512" "k" (buildClaims "c" "admin" 24 0)⟩) "k" 0 =
      Except.error (DecodeErr.invalid m) :=
  C7_hs256_only.2 _ "k" "k" "HS512" 0 rfl (by decide)

/-- Counterexample to claim C8 as stated: with `--expiry 0 --format json`
the token is generated successfully, yet producing the formatted output
fails: the json branch re-verifies the fresh token, which is already
expired, so the run prints an error and exits 1. -/
theorem C8_counterexample :
    (∃ tok, generate_jwt_token "test-client" "admin"
        "dev-secret-key-change-in-production" 0 "HS256" 1000 =
        Except.ok tok) ∧
    Script.main ⟨none, none, none, some 0, none, some "json"⟩ 1000 =
      ⟨1, [CliOutput.errorMsg "Error: Token has expired"], true⟩ :=
  ⟨⟨_, rfl⟩, by decide⟩

/-- Claim C8 as amended: formatting a successfully generated token cannot
fail under formats token and curl; under format json it additionally
re-verifies the fresh token, and cannot fail whenever the expiry is
positive (while a non-positive expiry makes the json branch fail, see the
counterexample). -/
theorem C8_format_total (a : CliArgs) (now : Int) :
    ((a.format = "token" ∨ a.format = "curl") →
      (mainGenerate a now).exitCode = 0) ∧
    (0 < a.expiry → (mainGenerate a now).exitCode = 0) := by
  have hgen := generate_ok a.clientId a.role a.secret a.expiry now
  constructor
  · rintro (hfmt | hfmt) <;> simp [mainGenerate, hgen, hfmt]
  · intro hexp
    have hdec := decode_generated a.clientId a.role a.secret a.expiry now hexp
    by_cases hfmt : a.format = "json"
    · simp [mainGenerate, hgen, hfmt, hdec]
    · by_cases hfmt2 : a.format = "curl" <;>
        simp [mainGenerate, hgen, hfmt, hfmt2]

/-- Witness for the amended C8 at a concrete input. -/
theorem C8_format_total_witness :
    (mainGenerate ⟨"c", "admin", "k", 24, none, "token"⟩ 0).exitCode = 0 :=
  (C8_format_total ⟨"c", "admin", "k", 24, none, "token"⟩ 0).1 (Or.inl rfl)

/-- Claim C9: generation always succeeds, the claims satisfy
exp = iat + expiry hours, exp exceeds iat exactly when the expiry is
positive, and a non-positive expiry silently yields exp at or before iat
(an already-expired token). -/
theorem C9_expiry_invariant (cid ρ s : String) (h now : Int) :
    ∃ tok, generate_jwt_token cid ρ s h "HS256" now = Except.ok tok ∧
      lookupClaim tok.payload "exp" = some (JwtValue.int (now + h * 3600)) ∧
      lookupClaim tok.payload "iat" = some (JwtValue.int now) ∧
      (0 < h → now < now + h * 3600) ∧
      (h ≤ 0 → now + h * 3600 ≤ now) := by
  refine ⟨_, generate_ok cid ρ s h now, ?_, ?_, ?_, ?_⟩
  · simp [buildClaims, lookupClaim]
  · simp [buildClaims, lookupClaim]
  · intro hpos; omega
  · intro hneg; omega

/-- Witness for C9 at a concrete (negative-expiry) input. -/
theorem C9_expiry_invariant_witness :
    ∃ tok, generate_jwt_token "c" "viewer" "k" (-1) "HS256" 100 =
        Except.ok tok ∧
      lookupClaim tok.payload "exp" =
        some (JwtValue.int (100 + (-1) * 3600)) ∧
      lookupClaim tok.payload "iat" = some (JwtValue.int 100) ∧
      (0 < (-1 : Int) → (100 : Int) < 100 + (-1) * 3600) ∧
      ((-1 : Int) ≤ 0 → (100 : Int) + (-1) * 3600 ≤ 100) :=
  C9_expiry_invariant "c" "viewer" "k" (-1) 100

/-- Claim C10: passing `--decode` the empty string skips the decode branch
(the dispatch tests truthiness), so the run falls through to generation
and prints a freshly generated token with exit status 0. -/
theorem C10_empty_decode_arg (now : Int) :
    ∃ tok, generate_jwt_token "test-client" "admin"
        "dev-secret-key-change-in-production" 24 "HS256" now =
        Except.ok tok ∧
      Script.main ⟨none, none, none, none, some TokenStr.empty, none⟩ now =
        ⟨0, [CliOutput.tokenOnly tok], true⟩ :=
  ⟨_, rfl, rfl⟩

/-- Witness for C10 at a concrete time. -/
theorem C10_empty_decode_arg_witness :
    ∃ tok, generate_jwt_token "test-client" "admin"
        "dev-secret-key-change-in-production" 24 "HS256" 0 =
        Except.ok tok ∧
      Script.main ⟨none, none, none, none, some TokenStr.empty, none⟩ 0 =
        ⟨0, [CliOutput.tokenOnly tok], true⟩ :=
  C10_empty_decode_arg 0
